import Mathlib

/-!
Verification of the localization link checker repository.

The repository contains several near-duplicate Flask programs that classify
the outbound links of a localized marketing page.  This file gives a shallow
embedding of the classification logic of the three relevant variants:

* `L10n.Single`  — `localization_link_checker.py` (plain functions returning
  `(status, status_code, issue)` tuples, or the value `False` on exception);
* `L10n.Updated` — `localization_link_checker_updated.py`
  (`class LinkChecker`, returning result dictionaries);
* `L10n.Bulk`    — `bulk_localization_link_checker.py` (same `LinkChecker`
  logic without the `base_url` parameter).

URLs are modelled structurally as `urlparse` components (scheme, netloc,
path, params, query, fragment); `render` is `urlunparse`.  The network is
modelled as an oracle: a list of `HttpOutcome` values consumed one per
`requests.head`/`requests.get` call, each being either a final response
(status code and final URL after redirects) or a raised exception.
-/

namespace L10n

/-- Status constants, from `class Status` in
`localization_link_checker_updated.py` (the single-URL variant uses the same
five string literals inline). -/
inductive Status where
  | success
  | error
  | defect
  | warning
  | localization_defect
deriving DecidableEq, Repr

/-- A URL split into its `urllib.parse.urlparse` components. -/
structure Url where
  scheme : String
  netloc : String
  path : String
  params : String := ""
  query : String := ""
  fragment : String := ""
deriving DecidableEq, Repr

/-- `urllib.parse.urlunparse`: reassemble a URL string from its components. -/
def render (u : Url) : String :=
  u.scheme ++ "://" ++ u.netloc ++ u.path
    ++ (if u.params = "" then "" else ";" ++ u.params)
    ++ (if u.query = "" then "" else "?" ++ u.query)
    ++ (if u.fragment = "" then "" else "#" ++ u.fragment)

/-- Python `s.rstrip('/')`: drop all trailing slash characters. -/
def rstripSlash (s : String) : String :=
  String.mk ((s.toList.reverse.dropWhile (fun c => c = '/')).reverse)

/-- Scan for the pattern at every suffix of the character list. -/
def containsAux (pat : List Char) : List Char → Bool
  | [] => pat.isEmpty
  | c :: cs => pat.isPrefixOf (c :: cs) || containsAux pat cs

/-- Python `pat in s` substring membership test. -/
def containsStr (s pat : String) : Bool :=
  containsAux pat.toList s.toList

/-- ASCII lower-casing of one character (the character class URLs use). -/
def toLowerChar (c : Char) : Char :=
  if 'A' ≤ c && c ≤ 'Z' then Char.ofNat (c.toNat + 32) else c

/-- Python `s.lower()` on the ASCII alphabet. -/
def lowerStr (s : String) : String :=
  String.mk (s.toList.map toLowerChar)

/-- Python `s.startswith(pre)`. -/
def startsWithStr (s pre : String) : Bool :=
  pre.toList.isPrefixOf s.toList

/-- Python `s.endswith(suf)` / the regex anchor `suf$`. -/
def endsWithStr (s suf : String) : Bool :=
  suf.toList.reverse.isPrefixOf s.toList.reverse

/-- Python `s[:-n]`: the string without its last `n` characters. -/
def dropRightStr (s : String) (n : Nat) : String :=
  String.mk (s.toList.take (s.toList.length - n))

/-- The regular expression test `re.match(rf'^/{locale}(/|$)', path)` used by
every variant: the path starts with `/<locale>/`, or is exactly `/<locale>`. -/
def localeAtPathStart (locale path : String) : Bool :=
  startsWithStr path ("/" ++ locale ++ "/") || path = "/" ++ locale

/-- One network interaction: either a final response (status code of the last
hop and final URL after `allow_redirects=True`), or a raised exception. -/
inductive HttpOutcome where
  | ok (code : Nat) (finalUrl : Url)
  | exn (msg : String)
deriving DecidableEq, Repr

/-- The network oracle: responses consumed in order, one per HTTP call. -/
abbrev Net := List HttpOutcome

/-- Consume the next response from the oracle.  An exhausted oracle behaves
like a raised exception (the Python code always gets a response or an
exception from `requests`). -/
def fetch : Net → HttpOutcome × Net
  | [] => (HttpOutcome.exn "no response", [])
  | r :: rs => (r, rs)

/-- The per-link result dictionary
`{'status': ..., 'status_code': ..., 'issue': ...}` built by the
`LinkChecker` classification methods. -/
structure CheckResult where
  status : Status
  status_code : Option Nat
  issue : Option String
deriving DecidableEq, Repr

/-- One extracted link: the dictionary
`{'url': ..., 'link_text': ..., 'original_href': ...}` built by link
extraction. -/
structure LinkRecord where
  url : String
  link_text : String
  original_href : String
deriving DecidableEq, Repr

/-- The per-language substring tables: `CONFIG['supported_languages']` in the
updated/bulk variants, identical to the `language_patterns` dictionary in
`detect_language_from_url` of the single-URL variant. -/
def language_patterns : List (String × List String) :=
  [ ("fr", ["/fr/", "/fr-fr/", "/french/", "/francais/"]),
    ("es", ["/es/", "/es-es/", "/spanish/", "/espanol/"]),
    ("de", ["/de/", "/de-de/", "/german/", "/deutsch/"]),
    ("it", ["/it/", "/it-it/", "/italian/", "/italiano/"]),
    ("ru", ["/ru/", "/ru-ru/", "/russian/", "/russkiy/"]) ]

/-- The table scan shared by `detect_language_from_url` (single variant) and
`LinkChecker.detect_language` (updated/bulk variants): first entry one of
whose patterns occurs in the lower-cased path wins; default `"en"`. -/
def find_language : List (String × List String) → String → String
  | [], _ => "en"
  | (lang, pats) :: rest, path =>
      if pats.any (fun p => containsStr path p) then lang
      else find_language rest path

/-- `detect_language_from_url` of `localization_link_checker.py`, line for
line identical in behaviour to `LinkChecker.detect_language` of the
updated/bulk variants. -/
def detect_language_from_url (u : Url) : String :=
  find_language language_patterns (lowerStr u.path)

namespace Updated

/-- `LinkChecker.is_file_link`: the regex
`\.(pdf|zip|docx?|xlsx?|pptx?|exe|rar|tar\.gz|7z)$` searched case
insensitively over the full URL string. -/
def is_file_link (s : String) : Bool :=
  let l := lowerStr s
  endsWithStr l ".pdf" || endsWithStr l ".zip" || endsWithStr l ".doc" ||
  endsWithStr l ".docx" || endsWithStr l ".xls" || endsWithStr l ".xlsx" ||
  endsWithStr l ".ppt" || endsWithStr l ".pptx" || endsWithStr l ".exe" ||
  endsWithStr l ".rar" || endsWithStr l ".tar.gz" || endsWithStr l ".7z"

/-- The regex `rf"(_|-){locale}\.pdf$"` searched case-insensitively over the
already lower-cased link path (`LinkChecker.check_link_localization`). -/
def locale_pdf_suffix (locale path : String) : Bool :=
  endsWithStr path ("_" ++ lowerStr locale ++ ".pdf") ||
  endsWithStr path ("-" ++ lowerStr locale ++ ".pdf")

/-- `LinkChecker._get_expected_localized_url` of
`localization_link_checker_updated.py` (identical in
`bulk_localization_link_checker.py`): PDF paths get a locale suffix before
the extension (`_ES` for Spanish, `-<locale>` otherwise); other paths not
already locale-prefixed get `/<locale>` prepended; otherwise `None`. -/
def get_expected_localized_url (u : Url) (locale : String) : Option Url :=
  if endsWithStr (lowerStr u.path) ".pdf" then
    let base_path := dropRightStr u.path 4
    let localized_path :=
      if lowerStr locale = "es" then base_path ++ "_ES.pdf"
      else base_path ++ "-" ++ locale ++ ".pdf"
    some { scheme := u.scheme, netloc := u.netloc, path := localized_path }
  else if ¬ localeAtPathStart locale u.path then
    some { scheme := u.scheme, netloc := u.netloc, path := "/" ++ locale ++ u.path }
  else none

/-- `LinkChecker._remove_fragments`: rebuild the URL without params, query
and fragment, then strip trailing slashes. -/
def remove_fragments (u : Url) : String :=
  rstripSlash (u.scheme ++ "://" ++ u.netloc ++ u.path)

/-- `LinkChecker._check_localized_link`: re-fetch an already-localized link
and compare the final redirect target with the link itself. -/
def check_localized_link (link_url : Url) (net : Net) : CheckResult × Net :=
  match fetch net with
  | (HttpOutcome.exn msg, net') =>
      ({ status := Status.error, status_code := none,
         issue := some ("Error check localized link: " ++ msg) }, net')
  | (HttpOutcome.ok code finalUrl, net') =>
      if code = 200 then
        if rstripSlash (render finalUrl) = rstripSlash (render link_url) then
          ({ status := Status.success, status_code := some 200, issue := none }, net')
        else
          ({ status := Status.success, status_code := some 200,
             issue := some ("Redirected to: " ++ render finalUrl) }, net')
      else
        ({ status := Status.localization_defect, status_code := some code,
           issue := some ("Localized link returns " ++ toString code ++ ", " ++ render finalUrl) }, net')

/-- `LinkChecker._check_non_localized_link` of the updated variant.  Its
first `self.session.get` call sits outside every `try` block, so an
exception there escapes to the caller: the escape is modelled by
`Except.error`. -/
def check_non_localized_link (link_url : Url) (locale : String) (net : Net) :
    Except String CheckResult × Net :=
  match fetch net with
  | (HttpOutcome.exn msg, net') => (Except.error msg, net')
  | (HttpOutcome.ok code _, net') =>
      if code ≠ 200 then
        (Except.ok { status := Status.error, status_code := some code,
                     issue := some ("Link is broken (HTTP " ++ toString code ++ ")") }, net')
      else
        match get_expected_localized_url link_url locale with
        | some expected =>
            if render expected ≠ render link_url then
              match fetch net' with
              | (HttpOutcome.exn msg, net'') =>
                  (Except.ok { status := Status.error, status_code := none,
                               issue := some ("Error check non-localized link: " ++ msg) }, net'')
              | (HttpOutcome.ok code2 final_url, net'') =>
                  if code2 = 200 then
                    let original_link_clean := remove_fragments link_url
                    let expected_localized_clean := remove_fragments expected
                    let final_url_clean := remove_fragments final_url
                    if final_url_clean ≠ original_link_clean ∧ final_url_clean ≠ expected_localized_clean then
                      (Except.ok { status := Status.success, status_code := some 200,
                                   issue := some ("Final link - " ++ render final_url ++
                                     " is different with non-localized link and expected localized link " ++
                                     render expected) }, net'')
                    else if final_url_clean ≠ original_link_clean ∧ final_url_clean = expected_localized_clean then
                      (Except.ok { status := Status.localization_defect, status_code := some 200,
                                   issue := some ("Should link to localized version: " ++ render expected) }, net'')
                    else
                      (Except.ok { status := Status.success, status_code := some 200,
                                   issue := some ("No localized version exists - " ++ render expected ++
                                     "; so redirects to default version: " ++ render final_url) }, net'')
                  else
                    (Except.ok { status := Status.success, status_code := none,
                                 issue := some ("No localized version exists - " ++ render expected ++
                                   ", returns status code: " ++ toString code2) }, net'')
            else
              (Except.ok { status := Status.success, status_code := some 200,
                           issue := some ("No localized version exists - " ++ render expected) }, net')
        | none =>
            (Except.ok { status := Status.success, status_code := some 200,
                         issue := some "No localized version exists - None" }, net')

/-- `LinkChecker.check_link_localization` of the updated variant: fetch the
link, gate on status 200 and the `nakivo.com` domain, then dispatch to the
localized or non-localized check.  The surrounding `try` converts any
escaping exception into an `error` result. -/
def check_link_localization (link_url _base_url : Url) (locale : String) (net : Net) :
    CheckResult × Net :=
  match fetch net with
  | (HttpOutcome.exn msg, net') =>
      ({ status := Status.error, status_code := none,
         issue := some ("Error checking link: " ++ msg) }, net')
  | (HttpOutcome.ok code _, net') =>
      if code ≠ 200 then
        ({ status := Status.error, status_code := some code,
           issue := some ("Link is broken (HTTP " ++ toString code ++ ")") }, net')
      else
        let path := lowerStr link_url.path
        if ¬ containsStr (lowerStr link_url.netloc) "nakivo.com" then
          ({ status := Status.warning, status_code := some code,
             issue := some "Not match nakivo.com" }, net')
        else if is_file_link (render link_url) && locale_pdf_suffix locale path then
          check_localized_link link_url net'
        else if localeAtPathStart locale link_url.path then
          check_localized_link link_url net'
        else
          match check_non_localized_link link_url locale net' with
          | (Except.ok r, net'') => (r, net'')
          | (Except.error msg, net'') =>
              ({ status := Status.error, status_code := none,
                 issue := some ("Error checking link: " ++ msg) }, net'')

end Updated

/-- `CONFIG['max_links_per_page']`, the same in every variant. -/
def max_links_per_page : Nat := 200

namespace Updated

/-- The duplicate-removal loop of `LinkChecker._parse_links`: walk the
collected link dictionaries, keeping a record only when its resolved URL has
not been `seen` before. -/
def dedup_links : List LinkRecord → List String → List LinkRecord
  | [], _ => []
  | l :: ls, seen =>
      if l.url ∈ seen then dedup_links ls seen
      else l :: dedup_links ls (l.url :: seen)

/-- The tail of `LinkChecker._parse_links` (after the per-anchor collection
loop, which is abstracted as the input list of records): deduplicate by
resolved URL, then truncate to `CONFIG['max_links_per_page']`. -/
def parse_links (links : List LinkRecord) : List LinkRecord :=
  let unique_links := dedup_links links []
  if unique_links.length > max_links_per_page then unique_links.take max_links_per_page
  else unique_links

/-- The per-page statistics dictionary built in `index` of the updated
variant (same formulas in `process_bulk_urls` and
`process_single_localization`); `success_rate` is modelled as an exact
rational. -/
structure PageStats where
  total_links : Nat
  working_links : Nat
  broken_links : Nat
  localization_defects : Nat
  warning_links : Nat
  success_rate : ℚ
deriving DecidableEq, Repr

/-- The statistics fold of `index` in the updated variant (lines computing
`total_links` through `success_rate`). -/
def compute_stats (results : List CheckResult) : PageStats :=
  let total_links := results.length
  let working_links := (results.filter (fun r => r.status = Status.success)).length
  let broken_links :=
    (results.filter (fun r => r.status = Status.error ∨ r.status = Status.defect)).length
  let localization_defects :=
    (results.filter (fun r => r.status = Status.localization_defect)).length
  let warning_links := (results.filter (fun r => r.status = Status.warning)).length
  { total_links := total_links
    working_links := working_links
    broken_links := broken_links
    localization_defects := localization_defects
    warning_links := warning_links
    success_rate :=
      if total_links ≠ 0 then (working_links : ℚ) / (total_links : ℚ) * 100 else 0 }

end Updated

namespace Bulk

/-- `LinkChecker.is_file_link` of `bulk_localization_link_checker.py`
(identical regex to the updated variant). -/
def is_file_link (s : String) : Bool :=
  let l := lowerStr s
  endsWithStr l ".pdf" || endsWithStr l ".zip" || endsWithStr l ".doc" ||
  endsWithStr l ".docx" || endsWithStr l ".xls" || endsWithStr l ".xlsx" ||
  endsWithStr l ".ppt" || endsWithStr l ".pptx" || endsWithStr l ".exe" ||
  endsWithStr l ".rar" || endsWithStr l ".tar.gz" || endsWithStr l ".7z"

/-- The `rf"(_|-){locale}\.pdf$"` search of the bulk variant's
`check_link_localization`. -/
def locale_pdf_suffix (locale path : String) : Bool :=
  endsWithStr path ("_" ++ lowerStr locale ++ ".pdf") ||
  endsWithStr path ("-" ++ lowerStr locale ++ ".pdf")

/-- `LinkChecker._get_expected_localized_url` of
`bulk_localization_link_checker.py` (textually identical to the updated
variant's). -/
def get_expected_localized_url (u : Url) (locale : String) : Option Url :=
  if endsWithStr (lowerStr u.path) ".pdf" then
    let base_path := dropRightStr u.path 4
    let localized_path :=
      if lowerStr locale = "es" then base_path ++ "_ES.pdf"
      else base_path ++ "-" ++ locale ++ ".pdf"
    some { scheme := u.scheme, netloc := u.netloc, path := localized_path }
  else if ¬ localeAtPathStart locale u.path then
    some { scheme := u.scheme, netloc := u.netloc, path := "/" ++ locale ++ u.path }
  else none

/-- `LinkChecker._remove_fragments` of the bulk variant. -/
def remove_fragments (u : Url) : String :=
  rstripSlash (u.scheme ++ "://" ++ u.netloc ++ u.path)

/-- `LinkChecker._check_localized_link` of the bulk variant (textually
identical to the updated variant's). -/
def check_localized_link (link_url : Url) (net : Net) : CheckResult × Net :=
  match fetch net with
  | (HttpOutcome.exn msg, net') =>
      ({ status := Status.error, status_code := none,
         issue := some ("Error check localized link: " ++ msg) }, net')
  | (HttpOutcome.ok code finalUrl, net') =>
      if code = 200 then
        if rstripSlash (render finalUrl) = rstripSlash (render link_url) then
          ({ status := Status.success, status_code := some 200, issue := none }, net')
        else
          ({ status := Status.success, status_code := some 200,
             issue := some ("Redirected to: " ++ render finalUrl) }, net')
      else
        ({ status := Status.localization_defect, status_code := some code,
           issue := some ("Localized link returns " ++ toString code ++ ", " ++ render finalUrl) }, net')

/-- `LinkChecker._check_non_localized_link` of the bulk variant: same logic
as the updated variant apart from the wording of the issue string in the
non-200 branch for the expected localized URL. -/
def check_non_localized_link (link_url : Url) (locale : String) (net : Net) :
    Except String CheckResult × Net :=
  match fetch net with
  | (HttpOutcome.exn msg, net') => (Except.error msg, net')
  | (HttpOutcome.ok code _, net') =>
      if code ≠ 200 then
        (Except.ok { status := Status.error, status_code := some code,
                     issue := some ("Link is broken (HTTP " ++ toString code ++ ")") }, net')
      else
        match get_expected_localized_url link_url locale with
        | some expected =>
            if render expected ≠ render link_url then
              match fetch net' with
              | (HttpOutcome.exn msg, net'') =>
                  (Except.ok { status := Status.error, status_code := none,
                               issue := some ("Error check non-localized link: " ++ msg) }, net'')
              | (HttpOutcome.ok code2 final_url, net'') =>
                  if code2 = 200 then
                    let original_link_clean := remove_fragments link_url
                    let expected_localized_clean := remove_fragments expected
                    let final_url_clean := remove_fragments final_url
                    if final_url_clean ≠ original_link_clean ∧ final_url_clean ≠ expected_localized_clean then
                      (Except.ok { status := Status.success, status_code := some 200,
                                   issue := some ("Final link - " ++ render final_url ++
                                     " is different with non-localized link and expected localized link " ++
                                     render expected) }, net'')
                    else if final_url_clean ≠ original_link_clean ∧ final_url_clean = expected_localized_clean then
                      (Except.ok { status := Status.localization_defect, status_code := some 200,
                                   issue := some ("Should link to localized version: " ++ render expected) }, net'')
                    else
                      (Except.ok { status := Status.success, status_code := some 200,
                                   issue := some ("No localized version exists - " ++ render expected ++
                                     "; so redirects to default version: " ++ render final_url) }, net'')
                  else
                    (Except.ok { status := Status.success, status_code := none,
                                 issue := some (toString code2 ++ " - No localized version exists - " ++
                                   render expected) }, net'')
            else
              (Except.ok { status := Status.success, status_code := some 200,
                           issue := some ("No localized version exists - " ++ render expected) }, net')
        | none =>
            (Except.ok { status := Status.success, status_code := some 200,
                         issue := some "No localized version exists - None" }, net')

/-- `LinkChecker.check_link_localization` of the bulk variant (no `base_url`
parameter; otherwise the updated variant's logic). -/
def check_link_localization (link_url : Url) (locale : String) (net : Net) :
    CheckResult × Net :=
  match fetch net with
  | (HttpOutcome.exn msg, net') =>
      ({ status := Status.error, status_code := none,
         issue := some ("Error checking link: " ++ msg) }, net')
  | (HttpOutcome.ok code _, net') =>
      if code ≠ 200 then
        ({ status := Status.error, status_code := some code,
           issue := some ("Link is broken (HTTP " ++ toString code ++ ")") }, net')
      else
        let path := lowerStr link_url.path
        if ¬ containsStr (lowerStr link_url.netloc) "nakivo.com" then
          ({ status := Status.warning, status_code := some code,
             issue := some "Not match nakivo.com" }, net')
        else if is_file_link (render link_url) && locale_pdf_suffix locale path then
          check_localized_link link_url net'
        else if localeAtPathStart locale link_url.path then
          check_localized_link link_url net'
        else
          match check_non_localized_link link_url locale net' with
          | (Except.ok r, net'') => (r, net'')
          | (Except.error msg, net'') =>
              ({ status := Status.error, status_code := none,
                 issue := some ("Error checking link: " ++ msg) }, net'')

end Bulk

/-- The result of the single-URL variant's classification functions: the
`(status, status_code, issue)` tuple returned on every normal path, or the
bare value `False` that `check_localization_consistency` returns from its
`except` clause. -/
inductive SingleResult where
  | tup (status : Status) (status_code : Option Nat) (issue : Option String)
  | boolFalse
deriving DecidableEq, Repr

namespace Single

/-- `'a' ≤ c ≤ 'z'`, the character class `[a-z]`. -/
def isLowerAlpha (c : Char) : Bool := 'a' ≤ c && c ≤ 'z'

/-- Match of the pattern `/[a-z]{2}(?:-[a-z]{2})?/` anchored at the head of
the character list (greedy optional group with backtracking, as in Python
`re`).  Returns the two-letter group and the characters after the match. -/
def langSegAt : List Char → Option (String × List Char)
  | '/' :: a :: b :: rest =>
      if isLowerAlpha a && isLowerAlpha b then
        match rest with
        | '-' :: c :: d :: '/' :: rest2 =>
            if isLowerAlpha c && isLowerAlpha d then some (String.mk [a, b], rest2)
            else none
        | '/' :: rest2 => some (String.mk [a, b], rest2)
        | _ => none
      else none
  | _ => none

/-- `re.search(r'/([a-z]{2})(?:-[a-z]{2})?/', s)`: the group of the leftmost
match, scanning positions left to right. -/
def findLangSeg : List Char → Option String
  | [] => none
  | c :: cs =>
      match langSegAt (c :: cs) with
      | some (lang, _) => some lang
      | none => findLangSeg cs

/-- Fuel-driven body of `subLangSeg`; each step consumes at least one
character, so fuel equal to the list length suffices. -/
def subLangSegAux (lang : String) : Nat → List Char → List Char
  | 0, cs => cs
  | _ + 1, [] => []
  | fuel + 1, c :: cs =>
      match langSegAt (c :: cs) with
      | some (_, rest) => '/' :: (lang.toList ++ '/' :: subLangSegAux lang fuel rest)
      | none => c :: subLangSegAux lang fuel cs

/-- `re.sub(r'/[a-z]{2}(?:-[a-z]{2})?/', f'/{lang}/', s)`: replace every
non-overlapping leftmost match (each match consumes its closing slash). -/
def subLangSeg (lang : String) (cs : List Char) : List Char :=
  subLangSegAux lang cs.length cs

/-- The cross-domain / no-language-match tail of
`get_expected_localization_url` (from `if base_lang not in [...]` to the
final `return url`): probe `/{base_lang}{path}` with a HEAD request and keep
it only on a 200 response. -/
def expected_fallback (url : Url) (base_lang0 : String) (net : Net) : Url × Net :=
  let base_lang := if base_lang0 ∈ ["es", "fr", "de", "it", "ru"] then base_lang0 else ""
  if ¬ localeAtPathStart base_lang url.path then
    match fetch net with
    | (HttpOutcome.ok code _, net') =>
        if code = 200 then ({ url with path := "/" ++ base_lang ++ url.path }, net')
        else (url, net')
    | (HttpOutcome.exn _, net') => (url, net')
  else (url, net)

/-- `get_expected_localization_url` of `localization_link_checker.py`: on
the base page's own domain, reuse the base path's language segment (replacing
any language segments of the target path, else prefixing one); otherwise
fall back to probing the detected base language. -/
def get_expected_localization_url (url base_url : Url) (net : Net) : Url × Net :=
  let base_lang := lowerStr (detect_language_from_url base_url)
  if url.netloc = base_url.netloc then
    match findLangSeg base_url.path.toList with
    | some lang =>
        let target_path :=
          if (findLangSeg url.path.toList).isSome then
            String.mk (subLangSeg lang url.path.toList)
          else "/" ++ lang ++ url.path
        ({ url with path := target_path }, net)
    | none => expected_fallback url base_lang net
  else expected_fallback url base_lang net

/-- `check_localization_consistency` of `localization_link_checker.py`.
Note the `except` clause: it returns the bare value `False`, not a result
tuple. -/
def check_localization_consistency (url base_url : Url) (net : Net) :
    SingleResult × Net :=
  let (expected_url, net1) := get_expected_localization_url url base_url net
  if render expected_url = render url then
    (SingleResult.tup Status.success (some 200) none, net1)
  else
    match fetch net1 with
    | (HttpOutcome.exn _, net2) => (SingleResult.boolFalse, net2)
    | (HttpOutcome.ok code _, net2) =>
        if code = 200 then
          match fetch net2 with
          | (HttpOutcome.exn _, net3) => (SingleResult.boolFalse, net3)
          | (HttpOutcome.ok code2 final_url, net3) =>
              if code2 = 200 then
                if rstripSlash (render final_url) ≠ rstripSlash (render url) ∧
                    rstripSlash (render final_url) ≠ rstripSlash (render expected_url) then
                  (SingleResult.tup Status.localization_defect (some 200)
                    (some ("Final link - " ++ render final_url ++
                      " is different with non-localized link and expect localized link")), net3)
                else if rstripSlash (render final_url) ≠ rstripSlash (render url) ∧
                    rstripSlash (render final_url) = rstripSlash (render expected_url) then
                  (SingleResult.tup Status.localization_defect (some 200)
                    (some ("Link should point to " ++ render expected_url ++
                      " (localized version exists)")), net3)
                else
                  (SingleResult.tup Status.success (some 200)
                    (some ("No localized version exists - " ++ render expected_url ++
                      "; so redirects to default version: " ++ render final_url)), net3)
              else
                (SingleResult.tup Status.success (some code2)
                  (some ("Localized link responds with fail status " ++ toString code)), net3)
        else
          (SingleResult.tup Status.defect (some code)
            (some ("Localized link responds with fail status " ++ toString code)), net2)

/-- `check_link_localization` of `localization_link_checker.py`: an
already-locale-prefixed link is HEAD-probed then GET-followed; any other
link goes through `check_localization_consistency`. -/
def check_link_localization (link_url base_url : Url) (locale : String) (net : Net) :
    SingleResult × Net :=
  if localeAtPathStart locale link_url.path then
    match fetch net with
    | (HttpOutcome.exn msg, net') =>
        (SingleResult.tup Status.error none (some ("Error checking link: " ++ msg)), net')
    | (HttpOutcome.ok code _, net') =>
        if code = 200 then
          match fetch net' with
          | (HttpOutcome.exn msg, net'') =>
              (SingleResult.tup Status.error none (some ("Error checking link: " ++ msg)), net'')
          | (HttpOutcome.ok code2 final_url, net'') =>
              if code2 = 200 then
                if rstripSlash (render final_url) = rstripSlash (render link_url) then
                  (SingleResult.tup Status.success (some 200) none, net'')
                else
                  (SingleResult.tup Status.success (some 200)
                    (some ("Redirect: Final link is redirect to other valid link - " ++
                      render final_url)), net'')
              else
                (SingleResult.tup Status.localization_defect (some 200)
                  (some ("Final link should be the default link - " ++ render final_url ++
                    "; but verify link is " ++ render link_url)), net'')
        else
          (SingleResult.tup Status.defect (some code)
            (some ("Localized link responds with fail status " ++ toString code)), net')
  else
    check_localization_consistency link_url base_url net

end Single

/-- Forget the fields of a classification result other than its status,
keeping the escaping-exception case apart. -/
def excStatus : Except String CheckResult → Except String Status
  | Except.ok r => Except.ok r.status
  | Except.error m => Except.error m

/-- `excStatus` on a normal result. -/
theorem excStatus_ok (r : CheckResult) : excStatus (Except.ok r) = Except.ok r.status := rfl

/-- `excStatus` on an escaping exception. -/
theorem excStatus_error (m : String) : excStatus (Except.error m) = Except.error m := rfl

/-- The non-localized checks of the updated and bulk variants agree on
status, exception behaviour and consumed responses; only issue wording
differs. -/
theorem nonloc_status_eq (u : Url) (loc : String) (net : Net) :
    excStatus (Updated.check_non_localized_link u loc net).1 =
      excStatus (Bulk.check_non_localized_link u loc net).1 ∧
    (Updated.check_non_localized_link u loc net).2 =
      (Bulk.check_non_localized_link u loc net).2 := by
  have hg : Bulk.get_expected_localized_url = Updated.get_expected_localized_url := rfl
  have hr : Bulk.remove_fragments = Updated.remove_fragments := rfl
  unfold Updated.check_non_localized_link Bulk.check_non_localized_link
  rw [hg, hr]
  rcases hf : fetch net with ⟨o, net1⟩
  rcases o with ⟨code, final⟩ | msg
  · simp only
    split
    · exact ⟨rfl, rfl⟩
    · rcases hexp : Updated.get_expected_localized_url u loc with _ | expected
      · exact ⟨rfl, rfl⟩
      · simp only
        split
        · rcases hf2 : fetch net1 with ⟨o2, net2⟩
          rcases o2 with ⟨code2, final2⟩ | msg2
          · simp only
            split
            · split
              · exact ⟨rfl, rfl⟩
              · split
                · exact ⟨rfl, rfl⟩
                · exact ⟨rfl, rfl⟩
            · exact ⟨rfl, rfl⟩
          · exact ⟨rfl, rfl⟩
        · exact ⟨rfl, rfl⟩
  · exact ⟨rfl, rfl⟩

/-- C6 (amended): the updated and bulk variants implement the same
classification rules — for every link URL, locale and sequence of HTTP
responses, their `check_link_localization` methods return the same status
(the `base_url` argument of the updated variant is unused). -/
theorem claim6_updated_bulk_same_status (link base : Url) (locale : String) (net : Net) :
    (Updated.check_link_localization link base locale net).1.status =
      (Bulk.check_link_localization link locale net).1.status := by
  have hloc : Bulk.check_localized_link = Updated.check_localized_link := rfl
  have hfile : Bulk.is_file_link = Updated.is_file_link := rfl
  have hsuf : Bulk.locale_pdf_suffix = Updated.locale_pdf_suffix := rfl
  unfold Updated.check_link_localization Bulk.check_link_localization
  rw [hloc, hfile, hsuf]
  rcases hf : fetch net with ⟨o, net1⟩
  rcases o with ⟨code, final⟩ | msg
  · simp only
    split
    · rfl
    · split
      · rfl
      · split
        · rfl
        · split
          · rfl
          · have h := nonloc_status_eq link locale net1
            rcases hu : Updated.check_non_localized_link link locale net1 with ⟨eu, nu⟩
            rcases hb : Bulk.check_non_localized_link link locale net1 with ⟨eb, nb⟩
            rw [hu, hb] at h
            rcases eu with mu | ru <;> rcases eb with mb | rb <;>
              simp [excStatus] at h <;> simp [h]
  · rfl

/-- C6 (counterexample): on the cross-domain link
`https://example.com/de/x` from base page `https://example.com/de/` with
locale `de`, fed the identical response sequence (two 200 responses with no
redirect), the updated variant's `check_link_localization` returns status
`warning` (its `nakivo.com` domain gate) while the single-URL variant
returns status `success` — the two variants do not return the same status. -/
theorem claim6_counterexample :
    (Updated.check_link_localization
        { scheme := "https", netloc := "example.com", path := "/de/x" }
        { scheme := "https", netloc := "example.com", path := "/de/" } "de"
        [HttpOutcome.ok 200 { scheme := "https", netloc := "example.com", path := "/de/x" },
         HttpOutcome.ok 200 { scheme := "https", netloc := "example.com", path := "/de/x" }]).1.status =
      Status.warning ∧
    (Single.check_link_localization
        { scheme := "https", netloc := "example.com", path := "/de/x" }
        { scheme := "https", netloc := "example.com", path := "/de/" } "de"
        [HttpOutcome.ok 200 { scheme := "https", netloc := "example.com", path := "/de/x" },
         HttpOutcome.ok 200 { scheme := "https", netloc := "example.com", path := "/de/x" }]).1 =
      SingleResult.tup Status.success (some 200) none ∧
    Status.warning ≠ Status.success := by
  refine ⟨by decide, by decide, by decide⟩

/-- C5 (failing input): for the non-locale-prefixed link
`https://www.nakivo.com/page` on the `de` base page
`https://www.nakivo.com/de/`, when the network call for the expected
localized URL raises, the single-URL variant's
`check_localization_consistency` returns the bare value `False` instead of a
`(status, status_code, issue)` tuple, so the caller's unpacking
`status, status_code, defect = check_link_localization(...)` in `index`
crashes. -/
theorem claim5_exception_returns_false :
    (Single.check_link_localization
        { scheme := "https", netloc := "www.nakivo.com", path := "/page" }
        { scheme := "https", netloc := "www.nakivo.com", path := "/de/" } "de"
        [HttpOutcome.exn "timeout"]).1 = SingleResult.boolFalse ∧
    ∀ st c i, (Single.check_link_localization
        { scheme := "https", netloc := "www.nakivo.com", path := "/page" }
        { scheme := "https", netloc := "www.nakivo.com", path := "/de/" } "de"
        [HttpOutcome.exn "timeout"]).1 ≠ SingleResult.tup st c i := by
  refine ⟨by decide, ?_⟩
  intro st c i h
  rw [show (Single.check_link_localization
      { scheme := "https", netloc := "www.nakivo.com", path := "/page" }
      { scheme := "https", netloc := "www.nakivo.com", path := "/de/" } "de"
      [HttpOutcome.exn "timeout"]).1 = SingleResult.boolFalse from by decide] at h
  exact SingleResult.noConfusion h

/-- C1: for a non-locale-prefixed link, if the expected localized URL (the
link with the locale segment inserted at the start of the path) responds 200
and its final redirect target equals the expected localized URL itself while
differing from the original link, the non-localized check classifies the
link as `localization_defect` with status code 200 — in the updated
variant's `_check_non_localized_link` (URL comparison up to that variant's
`_remove_fragments` normalisation) and in the single-URL variant's
`check_localization_consistency` (comparison up to `rstrip('/')`). -/
theorem claim1_existing_localized_page_is_defect :
    (∀ (link expected f0 final : Url) (locale : String) (rest : Net),
      Updated.get_expected_localized_url link locale = some expected →
      render expected ≠ render link →
      Updated.remove_fragments final = Updated.remove_fragments expected →
      Updated.remove_fragments final ≠ Updated.remove_fragments link →
      Updated.check_non_localized_link link locale
          (HttpOutcome.ok 200 f0 :: HttpOutcome.ok 200 final :: rest) =
        (Except.ok { status := Status.localization_defect, status_code := some 200,
                     issue := some ("Should link to localized version: " ++ render expected) },
         rest)) ∧
    (∀ (url base expected f1 final : Url) (net net1 rest : Net),
      Single.get_expected_localization_url url base net = (expected, net1) →
      render expected ≠ render url →
      net1 = HttpOutcome.ok 200 f1 :: HttpOutcome.ok 200 final :: rest →
      rstripSlash (render final) = rstripSlash (render expected) →
      rstripSlash (render final) ≠ rstripSlash (render url) →
      (Single.check_localization_consistency url base net).1 =
        SingleResult.tup Status.localization_defect (some 200)
          (some ("Link should point to " ++ render expected ++ " (localized version exists)"))) := by
  constructor
  · intro link expected f0 final locale rest hexp hne hfin hdiff
    rw [hfin] at hdiff
    unfold Updated.check_non_localized_link
    simp [fetch, hexp, hne, hfin, hdiff]
  · intro url base expected f1 final net net1 rest hg hne hnet hfin hdiff
    rw [hfin] at hdiff
    unfold Single.check_localization_consistency
    rw [hg, hnet]
    simp [fetch, hne, hfin, hdiff]

/-- C1 witness: the non-localized link `https://www.nakivo.com/page` with
locale `de`, whose expected localized URL `https://www.nakivo.com/de/page`
responds 200 and redirects to itself, is classified `localization_defect`
with status code 200 by both variants. -/
theorem claim1_witness :
    Updated.check_non_localized_link
        { scheme := "https", netloc := "www.nakivo.com", path := "/page" } "de"
        [HttpOutcome.ok 200 { scheme := "https", netloc := "www.nakivo.com", path := "/page" },
         HttpOutcome.ok 200 { scheme := "https", netloc := "www.nakivo.com", path := "/de/page" }] =
      (Except.ok { status := Status.localization_defect, status_code := some 200,
                   issue := some "Should link to localized version: https://www.nakivo.com/de/page" },
       []) ∧
    (Single.check_localization_consistency
        { scheme := "https", netloc := "www.nakivo.com", path := "/page" }
        { scheme := "https", netloc := "www.nakivo.com", path := "/de/" }
        [HttpOutcome.ok 200 { scheme := "https", netloc := "www.nakivo.com", path := "/de/page" },
         HttpOutcome.ok 200 { scheme := "https", netloc := "www.nakivo.com", path := "/de/page" }]).1 =
      SingleResult.tup Status.localization_defect (some 200)
        (some "Link should point to https://www.nakivo.com/de/page (localized version exists)") := by
  constructor
  · exact claim1_existing_localized_page_is_defect.1
      { scheme := "https", netloc := "www.nakivo.com", path := "/page" }
      { scheme := "https", netloc := "www.nakivo.com", path := "/de/page" }
      { scheme := "https", netloc := "www.nakivo.com", path := "/page" }
      { scheme := "https", netloc := "www.nakivo.com", path := "/de/page" }
      "de" [] (by decide) (by decide) (by decide) (by decide)
  · exact claim1_existing_localized_page_is_defect.2
      { scheme := "https", netloc := "www.nakivo.com", path := "/page" }
      { scheme := "https", netloc := "www.nakivo.com", path := "/de/" }
      { scheme := "https", netloc := "www.nakivo.com", path := "/de/page" }
      { scheme := "https", netloc := "www.nakivo.com", path := "/de/page" }
      { scheme := "https", netloc := "www.nakivo.com", path := "/de/page" }
      [HttpOutcome.ok 200 { scheme := "https", netloc := "www.nakivo.com", path := "/de/page" },
       HttpOutcome.ok 200 { scheme := "https", netloc := "www.nakivo.com", path := "/de/page" }]
      [HttpOutcome.ok 200 { scheme := "https", netloc := "www.nakivo.com", path := "/de/page" },
       HttpOutcome.ok 200 { scheme := "https", netloc := "www.nakivo.com", path := "/de/page" }]
      [] (by decide) (by decide) (by decide) (by decide) (by decide)

/-- C2 (counterexample): for the non-locale-prefixed link
`https://www.nakivo.com/page` on base page `https://www.nakivo.com/de/`,
when the (HEAD) request for the expected localized URL
`https://www.nakivo.com/de/page` returns 404, the single-URL variant's
classifier returns status `defect`, not `success`. -/
theorem claim2_counterexample :
    (Single.check_localization_consistency
        { scheme := "https", netloc := "www.nakivo.com", path := "/page" }
        { scheme := "https", netloc := "www.nakivo.com", path := "/de/" }
        [HttpOutcome.ok 404 { scheme := "https", netloc := "www.nakivo.com", path := "/page" }]).1 =
      SingleResult.tup Status.defect (some 404)
        (some "Localized link responds with fail status 404") ∧
    Status.defect ≠ Status.success := ⟨by decide, by decide⟩

/-- C2 (amended): a non-200 response for the expected localized URL yields
status `success` in the updated variant's `_check_non_localized_link`, but
in the single-URL variant the same condition on the initial HEAD request for
the expected URL yields status `defect` carrying that status code (only a
non-200 on the subsequent GET, after a 200 HEAD, yields `success`). -/
theorem claim2_amended_unreachable_expected :
    (∀ (link expected f0 final : Url) (locale : String) (code : Nat) (rest : Net),
      Updated.get_expected_localized_url link locale = some expected →
      render expected ≠ render link →
      code ≠ 200 →
      Updated.check_non_localized_link link locale
          (HttpOutcome.ok 200 f0 :: HttpOutcome.ok code final :: rest) =
        (Except.ok { status := Status.success, status_code := none,
                     issue := some ("No localized version exists - " ++ render expected ++
                       ", returns status code: " ++ toString code) }, rest)) ∧
    (∀ (url base expected f1 : Url) (code : Nat) (net net1 rest : Net),
      Single.get_expected_localization_url url base net = (expected, net1) →
      render expected ≠ render url →
      net1 = HttpOutcome.ok code f1 :: rest →
      code ≠ 200 →
      (Single.check_localization_consistency url base net).1 =
        SingleResult.tup Status.defect (some code)
          (some ("Localized link responds with fail status " ++ toString code))) := by
  constructor
  · intro link expected f0 final locale code rest hexp hne hcode
    unfold Updated.check_non_localized_link
    simp [fetch, hexp, hne, hcode]
  · intro url base expected f1 code net net1 rest hg hne hnet hcode
    unfold Single.check_localization_consistency
    rw [hg, hnet]
    simp [fetch, hne, hcode]

/-- C2 witness: a 404 on the expected localized URL
`https://www.nakivo.com/de/page` gives `success` in the updated variant and
`defect` in the single-URL variant. -/
theorem claim2_witness :
    Updated.check_non_localized_link
        { scheme := "https", netloc := "www.nakivo.com", path := "/page" } "de"
        [HttpOutcome.ok 200 { scheme := "https", netloc := "www.nakivo.com", path := "/page" },
         HttpOutcome.ok 404 { scheme := "https", netloc := "www.nakivo.com", path := "/de/page" }] =
      (Except.ok { status := Status.success, status_code := none,
                   issue := some "No localized version exists - https://www.nakivo.com/de/page, returns status code: 404" },
       []) ∧
    (Single.check_localization_consistency
        { scheme := "https", netloc := "www.nakivo.com", path := "/page" }
        { scheme := "https", netloc := "www.nakivo.com", path := "/de/" }
        [HttpOutcome.ok 404 { scheme := "https", netloc := "www.nakivo.com", path := "/page" }]).1 =
      SingleResult.tup Status.defect (some 404)
        (some "Localized link responds with fail status 404") := by
  constructor
  · exact claim2_amended_unreachable_expected.1
      { scheme := "https", netloc := "www.nakivo.com", path := "/page" }
      { scheme := "https", netloc := "www.nakivo.com", path := "/de/page" }
      { scheme := "https", netloc := "www.nakivo.com", path := "/page" }
      { scheme := "https", netloc := "www.nakivo.com", path := "/de/page" }
      "de" 404 [] (by decide) (by decide) (by decide)
  · exact claim2_amended_unreachable_expected.2
      { scheme := "https", netloc := "www.nakivo.com", path := "/page" }
      { scheme := "https", netloc := "www.nakivo.com", path := "/de/" }
      { scheme := "https", netloc := "www.nakivo.com", path := "/de/page" }
      { scheme := "https", netloc := "www.nakivo.com", path := "/page" }
      404
      [HttpOutcome.ok 404 { scheme := "https", netloc := "www.nakivo.com", path := "/page" }]
      [HttpOutcome.ok 404 { scheme := "https", netloc := "www.nakivo.com", path := "/page" }]
      [] (by decide) (by decide) (by decide) (by decide)

/-- C3 (counterexample): for the already-locale-prefixed link
`https://www.nakivo.com/de/x` whose request returns 404, the single-URL
variant's `check_link_localization` returns status `defect`, not `error`. -/
theorem claim3_counterexample :
    (Single.check_link_localization
        { scheme := "https", netloc := "www.nakivo.com", path := "/de/x" }
        { scheme := "https", netloc := "www.nakivo.com", path := "/de/" } "de"
        [HttpOutcome.ok 404 { scheme := "https", netloc := "www.nakivo.com", path := "/de/x" }]).1 =
      SingleResult.tup Status.defect (some 404)
        (some "Localized link responds with fail status 404") ∧
    Status.defect ≠ Status.error := ⟨by decide, by decide⟩

/-- C3 (amended): in the updated variant, a link whose own request returns a
non-200 status code is classified `error` carrying that status code; in the
single-URL variant, an already-locale-prefixed link whose request returns
non-200 is classified `defect` carrying that status code (and a
non-locale-prefixed link is never itself fetched). -/
theorem claim3_amended_broken_link :
    (∀ (link base f : Url) (locale : String) (code : Nat) (rest : Net),
      code ≠ 200 →
      Updated.check_link_localization link base locale (HttpOutcome.ok code f :: rest) =
        ({ status := Status.error, status_code := some code,
           issue := some ("Link is broken (HTTP " ++ toString code ++ ")") }, rest)) ∧
    (∀ (link base f : Url) (locale : String) (code : Nat) (rest : Net),
      localeAtPathStart locale link.path = true →
      code ≠ 200 →
      (Single.check_link_localization link base locale (HttpOutcome.ok code f :: rest)).1 =
        SingleResult.tup Status.defect (some code)
          (some ("Localized link responds with fail status " ++ toString code))) := by
  constructor
  · intro link base f locale code rest hcode
    unfold Updated.check_link_localization
    simp [fetch, hcode]
  · intro link base f locale code rest hpre hcode
    unfold Single.check_link_localization
    simp [fetch, hpre, hcode]

/-- C3 witness: a 404 on the link itself yields `error` (code 404) in the
updated variant and `defect` (code 404) in the single-URL variant for a
locale-prefixed link. -/
theorem claim3_witness :
    Updated.check_link_localization
        { scheme := "https", netloc := "www.nakivo.com", path := "/de/x" }
        { scheme := "https", netloc := "www.nakivo.com", path := "/de/" } "de"
        [HttpOutcome.ok 404 { scheme := "https", netloc := "www.nakivo.com", path := "/de/x" }] =
      ({ status := Status.error, status_code := some 404,
         issue := some "Link is broken (HTTP 404)" }, []) ∧
    (Single.check_link_localization
        { scheme := "https", netloc := "www.nakivo.com", path := "/de/x" }
        { scheme := "https", netloc := "www.nakivo.com", path := "/de/" } "de"
        [HttpOutcome.ok 404 { scheme := "https", netloc := "www.nakivo.com", path := "/de/x" }]).1 =
      SingleResult.tup Status.defect (some 404)
        (some "Localized link responds with fail status 404") := by
  constructor
  · exact claim3_amended_broken_link.1
      { scheme := "https", netloc := "www.nakivo.com", path := "/de/x" }
      { scheme := "https", netloc := "www.nakivo.com", path := "/de/" }
      { scheme := "https", netloc := "www.nakivo.com", path := "/de/x" }
      "de" 404 [] (by decide)
  · exact claim3_amended_broken_link.2
      { scheme := "https", netloc := "www.nakivo.com", path := "/de/x" }
      { scheme := "https", netloc := "www.nakivo.com", path := "/de/" }
      { scheme := "https", netloc := "www.nakivo.com", path := "/de/x" }
      "de" 404 [] (by decide) (by decide)

/-- C4: a link that already carries the current locale prefix and whose
initial request responds 200 is re-fetched; if the final URL after redirects
equals the link up to trailing slashes the result is `success` with no issue
note, if it differs under a 200 response the result is `success` with a
redirect note, and if the final response is non-200 the result is
`localization_defect` — in the updated variant's `check_link_localization`
(via `_check_localized_link`, behind its in-domain gate) and in the
single-URL variant's `check_link_localization` (HEAD gate, then GET). -/
theorem claim4_localized_link_cases :
    (∀ (link base f0 final : Url) (locale : String) (code2 : Nat) (rest : Net),
      containsStr (lowerStr link.netloc) "nakivo.com" = true →
      localeAtPathStart locale link.path = true →
      (code2 = 200 → rstripSlash (render final) = rstripSlash (render link) →
        (Updated.check_link_localization link base locale
            (HttpOutcome.ok 200 f0 :: HttpOutcome.ok code2 final :: rest)).1 =
          { status := Status.success, status_code := some 200, issue := none }) ∧
      (code2 = 200 → rstripSlash (render final) ≠ rstripSlash (render link) →
        (Updated.check_link_localization link base locale
            (HttpOutcome.ok 200 f0 :: HttpOutcome.ok code2 final :: rest)).1 =
          { status := Status.success, status_code := some 200,
            issue := some ("Redirected to: " ++ render final) }) ∧
      (code2 ≠ 200 →
        (Updated.check_link_localization link base locale
            (HttpOutcome.ok 200 f0 :: HttpOutcome.ok code2 final :: rest)).1 =
          { status := Status.localization_defect, status_code := some code2,
            issue := some ("Localized link returns " ++ toString code2 ++ ", " ++ render final) })) ∧
    (∀ (link base f0 final : Url) (locale : String) (code2 : Nat) (rest : Net),
      localeAtPathStart locale link.path = true →
      (code2 = 200 → rstripSlash (render final) = rstripSlash (render link) →
        (Single.check_link_localization link base locale
            (HttpOutcome.ok 200 f0 :: HttpOutcome.ok code2 final :: rest)).1 =
          SingleResult.tup Status.success (some 200) none) ∧
      (code2 = 200 → rstripSlash (render final) ≠ rstripSlash (render link) →
        (Single.check_link_localization link base locale
            (HttpOutcome.ok 200 f0 :: HttpOutcome.ok code2 final :: rest)).1 =
          SingleResult.tup Status.success (some 200)
            (some ("Redirect: Final link is redirect to other valid link - " ++ render final))) ∧
      (code2 ≠ 200 →
        (Single.check_link_localization link base locale
            (HttpOutcome.ok 200 f0 :: HttpOutcome.ok code2 final :: rest)).1 =
          SingleResult.tup Status.localization_defect (some 200)
            (some ("Final link should be the default link - " ++ render final ++
              "; but verify link is " ++ render link)))) := by
  constructor
  · intro link base f0 final locale code2 rest hdom hpre
    have hred : Updated.check_link_localization link base locale
        (HttpOutcome.ok 200 f0 :: HttpOutcome.ok code2 final :: rest) =
        Updated.check_localized_link link (HttpOutcome.ok code2 final :: rest) := by
      unfold Updated.check_link_localization
      simp [fetch, hdom, hpre]
    refine ⟨?_, ?_, ?_⟩
    · intro h1 h2
      rw [hred]
      unfold Updated.check_localized_link
      simp [fetch, h1, h2]
    · intro h1 h2
      rw [hred]
      unfold Updated.check_localized_link
      simp [fetch, h1, h2]
    · intro h1
      rw [hred]
      unfold Updated.check_localized_link
      simp [fetch, h1]
  · intro link base f0 final locale code2 rest hpre
    refine ⟨?_, ?_, ?_⟩
    · intro h1 h2
      unfold Single.check_link_localization
      simp [fetch, hpre, h1, h2]
    · intro h1 h2
      unfold Single.check_link_localization
      simp [fetch, hpre, h1, h2]
    · intro h1
      unfold Single.check_link_localization
      simp [fetch, hpre, h1]

/-- C4 witness: `https://www.nakivo.com/de/x` responding 200 with no
redirect is `success` with no issue note in both variants; a 404 on the
re-fetch is `localization_defect` in both variants. -/
theorem claim4_witness :
    (Updated.check_link_localization
        { scheme := "https", netloc := "www.nakivo.com", path := "/de/x" }
        { scheme := "https", netloc := "www.nakivo.com", path := "/de/" } "de"
        [HttpOutcome.ok 200 { scheme := "https", netloc := "www.nakivo.com", path := "/de/x" },
         HttpOutcome.ok 200 { scheme := "https", netloc := "www.nakivo.com", path := "/de/x" }]).1 =
      { status := Status.success, status_code := some 200, issue := none } ∧
    (Updated.check_link_localization
        { scheme := "https", netloc := "www.nakivo.com", path := "/de/x" }
        { scheme := "https", netloc := "www.nakivo.com", path := "/de/" } "de"
        [HttpOutcome.ok 200 { scheme := "https", netloc := "www.nakivo.com", path := "/de/x" },
         HttpOutcome.ok 404 { scheme := "https", netloc := "www.nakivo.com", path := "/de/x" }]).1 =
      { status := Status.localization_defect, status_code := some 404,
        issue := some "Localized link returns 404, https://www.nakivo.com/de/x" } ∧
    (Single.check_link_localization
        { scheme := "https", netloc := "www.nakivo.com", path := "/de/x" }
        { scheme := "https", netloc := "www.nakivo.com", path := "/de/" } "de"
        [HttpOutcome.ok 200 { scheme := "https", netloc := "www.nakivo.com", path := "/de/x" },
         HttpOutcome.ok 200 { scheme := "https", netloc := "www.nakivo.com", path := "/de/x" }]).1 =
      SingleResult.tup Status.success (some 200) none ∧
    (Single.check_link_localization
        { scheme := "https", netloc := "www.nakivo.com", path := "/de/x" }
        { scheme := "https", netloc := "www.nakivo.com", path := "/de/" } "de"
        [HttpOutcome.ok 200 { scheme := "https", netloc := "www.nakivo.com", path := "/de/x" },
         HttpOutcome.ok 404 { scheme := "https", netloc := "www.nakivo.com", path := "/de/x" }]).1 =
      SingleResult.tup Status.localization_defect (some 200)
        (some ("Final link should be the default link - https://www.nakivo.com/de/x" ++
          "; but verify link is https://www.nakivo.com/de/x")) := by
  refine ⟨?_, ?_, ?_, ?_⟩
  · exact ((claim4_localized_link_cases.1
      { scheme := "https", netloc := "www.nakivo.com", path := "/de/x" }
      { scheme := "https", netloc := "www.nakivo.com", path := "/de/" }
      { scheme := "https", netloc := "www.nakivo.com", path := "/de/x" }
      { scheme := "https", netloc := "www.nakivo.com", path := "/de/x" }
      "de" 200 [] (by decide) (by decide)).1 (by decide) (by decide))
  · exact ((claim4_localized_link_cases.1
      { scheme := "https", netloc := "www.nakivo.com", path := "/de/x" }
      { scheme := "https", netloc := "www.nakivo.com", path := "/de/" }
      { scheme := "https", netloc := "www.nakivo.com", path := "/de/x" }
      { scheme := "https", netloc := "www.nakivo.com", path := "/de/x" }
      "de" 404 [] (by decide) (by decide)).2.2 (by decide))
  · exact ((claim4_localized_link_cases.2
      { scheme := "https", netloc := "www.nakivo.com", path := "/de/x" }
      { scheme := "https", netloc := "www.nakivo.com", path := "/de/" }
      { scheme := "https", netloc := "www.nakivo.com", path := "/de/x" }
      { scheme := "https", netloc := "www.nakivo.com", path := "/de/x" }
      "de" 200 [] (by decide)).1 (by decide) (by decide))
  · exact ((claim4_localized_link_cases.2
      { scheme := "https", netloc := "www.nakivo.com", path := "/de/x" }
      { scheme := "https", netloc := "www.nakivo.com", path := "/de/" }
      { scheme := "https", netloc := "www.nakivo.com", path := "/de/x" }
      { scheme := "https", netloc := "www.nakivo.com", path := "/de/x" }
      "de" 404 [] (by decide)).2.2 (by decide))

/-- String concatenation ends with its right part. -/
theorem endsWithStr_append (a b : String) : endsWithStr (a ++ b) b = true := by
  unfold endsWithStr
  rw [ List.isPrefixOf_iff_prefix]
  have h : (a ++ b).toList = a.toList ++ b.toList := by
    simp [String.toList]
  rw [h, List.reverse_append]
  exact List.prefix_append _ _

/-- C7: for every URL whose (lower-cased) path ends in `.pdf`,
`_get_expected_localized_url` inserts the locale before the extension: for
locale `es` the expected path is the path stem followed by `_ES.pdf`, and
for any locale other than `es` it is the stem followed by `-<locale>.pdf`
(updated variant; the bulk variant's definition is identical). -/
theorem claim7_pdf_expected_url (u : Url) (locale : String)
    (hpdf : endsWithStr (lowerStr u.path) ".pdf" = true) :
    (locale = "es" →
      Updated.get_expected_localized_url u locale =
        some { scheme := u.scheme, netloc := u.netloc,
               path := dropRightStr u.path 4 ++ "_ES.pdf" } ∧
      endsWithStr (dropRightStr u.path 4 ++ "_ES.pdf") "_ES.pdf" = true) ∧
    (lowerStr locale ≠ "es" →
      Updated.get_expected_localized_url u locale =
        some { scheme := u.scheme, netloc := u.netloc,
               path := dropRightStr u.path 4 ++ ("-" ++ locale ++ ".pdf") } ∧
      endsWithStr (dropRightStr u.path 4 ++ ("-" ++ locale ++ ".pdf"))
        ("-" ++ locale ++ ".pdf") = true) := by
  constructor
  · intro hes
    subst hes
    constructor
    · unfold Updated.get_expected_localized_url
      rw [if_pos hpdf]
      simp [show lowerStr "es" = "es" from by decide]
    · exact endsWithStr_append _ _
  · intro hne
    constructor
    · unfold Updated.get_expected_localized_url
      rw [if_pos hpdf]
      simp [hne, String.append_assoc]
    · exact endsWithStr_append _ _

/-- C7 witness: for `https://www.nakivo.com/files/guide.pdf`, locale `es`
yields expected path `/files/guide_ES.pdf` and locale `de` yields
`/files/guide-de.pdf`. -/
theorem claim7_witness :
    Updated.get_expected_localized_url
        { scheme := "https", netloc := "www.nakivo.com", path := "/files/guide.pdf" } "es" =
      some { scheme := "https", netloc := "www.nakivo.com", path := "/files/guide_ES.pdf" } ∧
    Updated.get_expected_localized_url
        { scheme := "https", netloc := "www.nakivo.com", path := "/files/guide.pdf" } "de" =
      some { scheme := "https", netloc := "www.nakivo.com", path := "/files/guide-de.pdf" } := by
  constructor
  · exact ((claim7_pdf_expected_url
      { scheme := "https", netloc := "www.nakivo.com", path := "/files/guide.pdf" } "es"
      (by decide)).1 rfl).1
  · exact ((claim7_pdf_expected_url
      { scheme := "https", netloc := "www.nakivo.com", path := "/files/guide.pdf" } "de"
      (by decide)).2 (by decide)).1

/-- The table scan is the first matching entry of the table, default
`"en"`. -/
theorem find_language_eq_find? (t : List (String × List String)) (path : String) :
    find_language t path =
      ((t.find? (fun pr => pr.2.any (fun p => containsStr path p))).map Prod.fst).getD "en" := by
  induction t with
  | nil => rfl
  | cons pr rest ih =>
      rcases pr with ⟨lang, pats⟩
      by_cases h : (pats.any (fun p => containsStr path p)) = true
      · simp [find_language, List.find?_cons, h]
      · simp only [Bool.not_eq_true] at h
        simp [find_language, List.find?_cons, h, ih]

/-- C8: language detection returns a code from the fixed set
`{fr, es, de, it, ru}` precisely as the first entry of the pattern table one
of whose literal substrings occurs in the lower-cased URL path, and `"en"`
otherwise; in particular `detect_language_from_url` of
`https://site/es/page` is `"es"`, and a URL matching no pattern yields
`"en"`. -/
theorem claim8_detect_language :
    (∀ u : Url, detect_language_from_url u ∈ ["fr", "es", "de", "it", "ru", "en"]) ∧
    (∀ u : Url, detect_language_from_url u =
      ((language_patterns.find?
          (fun pr => pr.2.any (fun p => containsStr (lowerStr u.path) p))).map Prod.fst).getD "en") ∧
    detect_language_from_url { scheme := "https", netloc := "site", path := "/es/page" } = "es" ∧
    (∀ u : Url,
      (∀ pr ∈ language_patterns, ∀ p ∈ pr.2, containsStr (lowerStr u.path) p = false) →
      detect_language_from_url u = "en") := by
  refine ⟨?_, ?_, by decide, ?_⟩
  · intro u
    unfold detect_language_from_url
    rw [find_language_eq_find? language_patterns (lowerStr u.path)]
    rcases hf : language_patterns.find?
        (fun pr => pr.2.any (fun p => containsStr (lowerStr u.path) p)) with _ | pr
    · rw [hf]
      simp
    · have hmem := List.mem_of_find?_eq_some hf
      rw [hf]
      simp only [language_patterns, List.mem_cons, List.not_mem_nil, or_false] at hmem
      rcases hmem with h | h | h | h | h <;> subst h <;> simp
  · intro u
    unfold detect_language_from_url
    exact find_language_eq_find? language_patterns (lowerStr u.path)
  · intro u hnone
    unfold detect_language_from_url
    rw [find_language_eq_find? language_patterns (lowerStr u.path)]
    have : language_patterns.find?
        (fun pr => pr.2.any (fun p => containsStr (lowerStr u.path) p)) = none := by
      rw [List.find?_eq_none]
      intro pr hpr
      simp only [Bool.not_eq_true, List.any_eq_false]
      intro p hp
      simpa using hnone pr hpr p hp
    rw [this]
    rfl

/-- C8 witness: the URL `https://site/nothing-here` matches no pattern and
is detected as `"en"`, and the `/es/page` path is detected as `"es"`. -/
theorem claim8_witness :
    detect_language_from_url { scheme := "https", netloc := "site", path := "/nothing-here" } = "en" ∧
    detect_language_from_url { scheme := "https", netloc := "site", path := "/es/page" } = "es" := by
  constructor
  · exact claim8_detect_language.2.2.2
      { scheme := "https", netloc := "site", path := "/nothing-here" } (by decide)
  · exact claim8_detect_language.2.2.1

/-- The deduplication loop yields a sublist of its input (order of first
appearance is preserved). -/
theorem dedup_links_sublist (ls : List LinkRecord) (seen : List String) :
    (Updated.dedup_links ls seen).Sublist ls := by
  induction ls generalizing seen with
  | nil => simp [Updated.dedup_links]
  | cons l ls ih =>
      unfold Updated.dedup_links
      by_cases h : l.url ∈ seen
      · rw [if_pos h]
        exact (ih seen).cons l
      · rw [if_neg h]
        exact (ih (l.url :: seen)).cons₂ l

/-- A URL occurs in the deduplicated list iff it occurs in the input and was
not already seen. -/
theorem dedup_links_mem (ls : List LinkRecord) (seen : List String) (u : String) :
    u ∈ (Updated.dedup_links ls seen).map LinkRecord.url ↔
      u ∈ ls.map LinkRecord.url ∧ u ∉ seen := by
  induction ls generalizing seen with
  | nil => simp [Updated.dedup_links]
  | cons l ls ih =>
      unfold Updated.dedup_links
      by_cases h : l.url ∈ seen
      · rw [if_pos h]
        rw [ih seen]
        simp only [List.map_cons, List.mem_cons]
        constructor
        · exact fun ⟨h1, h2⟩ => ⟨Or.inr h1, h2⟩
        · rintro ⟨h1 | h1, h2⟩
          · exact absurd (h1 ▸ h) h2
          · exact ⟨h1, h2⟩
      · rw [if_neg h]
        simp only [List.map_cons, List.mem_cons]
        rw [ih (l.url :: seen)]
        simp only [List.mem_cons]
        constructor
        · rintro (h1 | ⟨h1, h2⟩)
          · exact ⟨Or.inl h1, h1 ▸ h⟩
          · exact ⟨Or.inr h1, fun hs => h2 (Or.inr hs)⟩
        · rintro ⟨h1 | h1, h2⟩
          · exact Or.inl h1
          · by_cases he : u = l.url
            · exact Or.inl he
            · exact Or.inr ⟨h1, fun hs => (hs.elim he fun hh => h2 hh)⟩

/-- The deduplicated list has no repeated URLs. -/
theorem dedup_links_nodup (ls : List LinkRecord) (seen : List String) :
    ((Updated.dedup_links ls seen).map LinkRecord.url).Nodup := by
  induction ls generalizing seen with
  | nil => simp [Updated.dedup_links]
  | cons l ls ih =>
      unfold Updated.dedup_links
      by_cases h : l.url ∈ seen
      · rw [if_pos h]
        exact ih seen
      · rw [if_neg h]
        simp only [List.map_cons, List.nodup_cons]
        refine ⟨?_, ih (l.url :: seen)⟩
        intro hmem
        exact ((dedup_links_mem ls (l.url :: seen) l.url).mp hmem).2 (List.mem_cons_self _ _)

/-- C9: the record list produced by `_parse_links` is the deduplicated input
truncated to the first `max_links_per_page = 200` records: it is a sublist
of the input (first-appearance order), its URLs are pairwise distinct,
before truncation every distinct input URL appears exactly once, and the
output length never exceeds 200. -/
theorem claim9_parse_links_dedup (links : List LinkRecord) :
    Updated.parse_links links = (Updated.dedup_links links []).take max_links_per_page ∧
    (Updated.dedup_links links []).Sublist links ∧
    ((Updated.parse_links links).map LinkRecord.url).Nodup ∧
    (∀ u, u ∈ links.map LinkRecord.url ↔ u ∈ (Updated.dedup_links links []).map LinkRecord.url) ∧
    (∀ u, u ∈ links.map LinkRecord.url →
      ((Updated.dedup_links links []).map LinkRecord.url).count u = 1) ∧
    (Updated.parse_links links).length ≤ max_links_per_page := by
  have htake : Updated.parse_links links = (Updated.dedup_links links []).take max_links_per_page := by
    unfold Updated.parse_links
    by_cases h : (Updated.dedup_links links []).length > max_links_per_page
    · rw [if_pos h]
    · rw [if_neg h]
      rw [List.take_of_length_le (le_of_not_lt h)]
  refine ⟨htake, dedup_links_sublist links [], ?_, ?_, ?_, ?_⟩
  · rw [htake]
    exact (dedup_links_nodup links []).sublist ((List.take_sublist _ _).map _)
  · intro u
    rw [dedup_links_mem]
    simp
  · intro u hu
    refine List.count_eq_one_of_mem (dedup_links_nodup links []) ?_
    rw [dedup_links_mem]
    exact ⟨hu, List.not_mem_nil u⟩
  · rw [htake]
    exact le_trans (List.length_take_le _ _) (le_refl _)

/-- C9 witness: two anchors resolving to the same URL yield one record, in
first-appearance order. -/
theorem claim9_witness :
    Updated.parse_links
        [{ url := "https://a/x", link_text := "first", original_href := "/x" },
         { url := "https://a/y", link_text := "second", original_href := "/y" },
         { url := "https://a/x", link_text := "dup", original_href := "/x" }] =
      [{ url := "https://a/x", link_text := "first", original_href := "/x" },
       { url := "https://a/y", link_text := "second", original_href := "/y" }] ∧
    (["https://a/x", "https://a/y"] : List String).count "https://a/x" = 1 := by
  constructor
  · have h := (claim9_parse_links_dedup
      [{ url := "https://a/x", link_text := "first", original_href := "/x" },
       { url := "https://a/y", link_text := "second", original_href := "/y" },
       { url := "https://a/x", link_text := "dup", original_href := "/x" }]).1
    rw [h]
    decide
  · have h := ((claim9_parse_links_dedup
      [{ url := "https://a/x", link_text := "first", original_href := "/x" },
       { url := "https://a/y", link_text := "second", original_href := "/y" },
       { url := "https://a/x", link_text := "dup", original_href := "/x" }]).2.2.2.2.1)
      "https://a/x" (by decide)
    exact h

/-- The four status filters partition any result list: every result counts
in exactly one of working, broken (error or defect), localization defects,
warnings. -/
theorem status_filter_partition (results : List CheckResult) :
    (results.filter (fun r => r.status = Status.success)).length +
      (results.filter (fun r => r.status = Status.error ∨ r.status = Status.defect)).length +
      (results.filter (fun r => r.status = Status.localization_defect)).length +
      (results.filter (fun r => r.status = Status.warning)).length = results.length := by
  induction results with
  | nil => rfl
  | cons r rs ih =>
      rcases hs : r.status <;> simp [List.filter_cons, hs, Bool.decide_or] at ih ⊢ <;> omega

/-- C10: every status is one of the five values, the aggregated statistics
partition the total (`working + broken + localization_defects + warnings =
total`, with `broken` counting `error` and `defect`), and the success rate
is `working / total * 100`, taken as `0` on an empty result list (statistics
fold of `index` in the updated variant). -/
theorem claim10_stats_invariant (results : List CheckResult) :
    (∀ r ∈ results,
      r.status = Status.success ∨ r.status = Status.error ∨ r.status = Status.defect ∨
        r.status = Status.warning ∨ r.status = Status.localization_defect) ∧
    (Updated.compute_stats results).working_links + (Updated.compute_stats results).broken_links +
        (Updated.compute_stats results).localization_defects +
        (Updated.compute_stats results).warning_links =
      (Updated.compute_stats results).total_links ∧
    ((Updated.compute_stats results).total_links ≠ 0 →
      (Updated.compute_stats results).success_rate =
        ((Updated.compute_stats results).working_links : ℚ) /
          ((Updated.compute_stats results).total_links : ℚ) * 100) ∧
    ((Updated.compute_stats results).total_links = 0 →
      (Updated.compute_stats results).success_rate = 0) := by
  refine ⟨?_, ?_, ?_, ?_⟩
  · intro r _
    rcases h : r.status <;> simp
  · have h := status_filter_partition results
    simpa [Updated.compute_stats, Nat.add_assoc] using h
  · intro h0
    simp only [Updated.compute_stats] at h0 ⊢
    rw [if_pos h0]
  · intro h0
    simp only [Updated.compute_stats] at h0 ⊢
    rw [if_neg (by simpa using h0)]

/-- C10 witness: on a run with one success, one error and one localization
defect the success-rate equation holds with a nonzero total, and an empty
run has success rate `0` rather than a division error. -/
theorem claim10_witness :
    (Updated.compute_stats
        [{ status := Status.success, status_code := some 200, issue := none },
         { status := Status.error, status_code := some 404, issue := none },
         { status := Status.localization_defect, status_code := some 200, issue := none }]).success_rate =
      ((Updated.compute_stats
        [{ status := Status.success, status_code := some 200, issue := none },
         { status := Status.error, status_code := some 404, issue := none },
         { status := Status.localization_defect, status_code := some 200, issue := none }]).working_links : ℚ) /
        ((Updated.compute_stats
        [{ status := Status.success, status_code := some 200, issue := none },
         { status := Status.error, status_code := some 404, issue := none },
         { status := Status.localization_defect, status_code := some 200, issue := none }]).total_links : ℚ) * 100 ∧
    (Updated.compute_stats []).success_rate = 0 := by
  constructor
  · exact (claim10_stats_invariant
      [{ status := Status.success, status_code := some 200, issue := none },
       { status := Status.error, status_code := some 404, issue := none },
       { status := Status.localization_defect, status_code := some 200, issue := none }]).2.2.1
      (by decide)
  · exact (claim10_stats_invariant []).2.2.2 rfl

end L10n
